import Mathlib

/-!
Verification of the WhatsApp-webhook → RabbitMQ relay (src/index.js).

The development shallowly embeds the relay's request handlers and helper
functions as executable Lean definitions, translated from the JavaScript
source.  JavaScript platform primitives are modelled as follows:

* machine integers: JS bitwise operators work on 32-bit two's-complement
  values obtained by `ToInt32`/`ToUint32`; these are modelled on `Int`/`Nat`
  with explicit reduction modulo 2^32;
* `NaN` (arising from `parseInt`/`Number` on non-numeric text, or from
  indexing past the end of an array) is modelled as `none` in `Option Int`,
  with the ECMAScript `NaN`-propagation rules written out at each use site;
* `JSON.parse` of the raw request body is a platform primitive; its outcome
  is carried in the request model as an `Option Json` field (`none` = the
  body does not parse as JSON), mirroring the raw-body middleware at
  src/index.js:624-642 which falls back to `{}` on a parse error;
* `crypto.createHmac('sha256', …)` is abstracted as an explicit function
  argument `hmacHex : String → String → String` (secret → body → lowercase
  hex digest); everything around it (header guards, `sha256=` scheme
  stripping, hex decoding, the length behaviour of `crypto.timingSafeEqual`)
  is translated from the source of `validateHubSignature`.
-/

namespace WhatsappWebhook

/-! ## JavaScript primitive semantics -/

/-- `ToUint32`: reduce an integer to its unsigned 32-bit representative. -/
def toUint32 (x : Int) : Nat := (x % 4294967296).toNat

/-- `ToInt32`: reduce an integer to its signed 32-bit representative. -/
def toInt32 (x : Int) : Int :=
  let u := toUint32 x
  if u < 2147483648 then (u : Int) else (u : Int) - 4294967296

/-- `ToInt32` applied to a JS number that may be `NaN` (`ToInt32(NaN) = 0`). -/
def jsToInt32 : Option Int → Int
  | none => 0
  | some v => toInt32 v

/-- `ToUint32` applied to a JS number that may be `NaN` (`ToUint32(NaN) = 0`). -/
def jsToUint32 : Option Int → Nat
  | none => 0
  | some v => toUint32 v

/-- JS `x << k` for `k < 32`: `ToInt32(x)` shifted left, wrapped to int32. -/
def jsShl (x : Option Int) (k : Nat) : Int :=
  toInt32 (jsToInt32 x * (2 : Int) ^ k)

/-- JS `~x` on an int32 value (`~x = -x - 1`). -/
def jsNot32 (x : Int) : Int := -x - 1

/-- JS `x >>> 0` on an int32 value: reinterpret as unsigned. -/
def jsUshrZero (x : Int) : Int := (toUint32 x : Int)

/-- Truthiness of a JS string-or-undefined value: `undefined` and the empty
string are falsy, every other string is truthy. -/
def optTruthy : Option String → Bool
  | none => false
  | some s => s != ""

/-- JS `str.includes(c)` for a single-character needle. -/
def jsIncludes (s : String) (c : Char) : Bool := s.data.any (· == c)

/-- JS `str.split(sep)` for a single-character separator, on the character
list of the string.  Empty fields are retained, as in JavaScript. -/
def jsSplitCharList (c : Char) : List Char → List (List Char)
  | [] => [[]]
  | x :: xs =>
    let r := jsSplitCharList c xs
    if x == c then [] :: r
    else
      match r with
      | [] => [[x]]
      | y :: ys => (x :: y) :: ys

/-- JS `str.split(sep)` for a single-character separator. -/
def jsSplitChar (c : Char) (s : String) : List String :=
  (jsSplitCharList c s.data).map String.mk

/-- Characters treated as whitespace by JS `parseInt` / `Number`. -/
def jsIsSpace (c : Char) : Bool :=
  c == ' ' || c == '\t' || c == '\n' || c == '\r'

/-- Decimal digit value of a character, if any. -/
def digitVal? (c : Char) : Option Nat :=
  if '0' ≤ c ∧ c ≤ '9' then some (c.toNat - '0'.toNat) else none

/-- Accumulate leading decimal digits; returns the value and whether at least
one digit was consumed. -/
def takeDigits : List Char → Nat → Bool → Nat × Bool
  | [], acc, seen => (acc, seen)
  | c :: cs, acc, seen =>
    match digitVal? c with
    | some d => takeDigits cs (acc * 10 + d) true
    | none => (acc, seen)

/-- JS `parseInt(x, 10)` where `x` may be `undefined`.
`parseInt(undefined, 10)` stringifies to `"undefined"`, which has no leading
digits, hence `NaN`; for a string: skip leading whitespace, read an optional
sign and then leading decimal digits, ignore any trailing text; `NaN` when no
digit is found.  `NaN` is modelled as `none`. -/
def jsParseInt : Option String → Option Int
  | none => none
  | some s =>
    let cs := s.data.dropWhile jsIsSpace
    let (sign, rest) :=
      match cs with
      | '-' :: t => ((-1 : Int), t)
      | '+' :: t => ((1 : Int), t)
      | t => ((1 : Int), t)
    let (v, seen) := takeDigits rest 0 false
    if seen then some (sign * (v : Int)) else none

/-- JS `Number(str)` restricted to optionally-signed decimal integer
literals: the empty / all-whitespace string converts to `0`; a signed decimal
integer converts to its value; every other form (fractional, exponent, hex
literals, garbage) is modelled as `NaN` (`none`).  Fractional literals are the
only JS-convertible forms collapsed to `NaN` by this model; no theorem below
depends on them. -/
def jsNumber (s : String) : Option Int :=
  let cs := (s.data.dropWhile jsIsSpace).reverse.dropWhile jsIsSpace |>.reverse
  match cs with
  | [] => some 0
  | _ =>
    let (sign, rest) :=
      match cs with
      | '-' :: t => ((-1 : Int), t)
      | '+' :: t => ((1 : Int), t)
      | t => ((1 : Int), t)
    if rest ≠ [] ∧ rest.all (fun c => (digitVal? c).isSome) then
      some (sign * ((takeDigits rest 0 false).1 : Int))
    else none

/-! ## JSON values

An inductive model of the JavaScript values a webhook body can hold after
`JSON.parse`.  Numbers are modelled as integers (the payloads the relay
handles are WhatsApp event objects; no claim depends on fractional number
serialization). -/

inductive Json where
  | null : Json
  | bool : Bool → Json
  | num : Int → Json
  | str : String → Json
  | arr : List Json → Json
  | obj : List (String × Json) → Json

/-- Hexadecimal digit for `\uXXXX` escapes. -/
def hexChar (n : Nat) : Char :=
  if n < 10 then Char.ofNat ('0'.toNat + n) else Char.ofNat ('a'.toNat + n - 10)

/-- `JSON.stringify` escaping for one character of a string literal. -/
def jsonEscapeChar (c : Char) : String :=
  if c == '"' then "\\\""
  else if c == '\\' then "\\\\"
  else if c == '\n' then "\\n"
  else if c == '\r' then "\\r"
  else if c == '\t' then "\\t"
  else if c == (Char.ofNat 8) then "\\b"
  else if c == (Char.ofNat 12) then "\\f"
  else if c.toNat < 32 then
    "\\u00" ++ String.mk [hexChar (c.toNat / 16), hexChar (c.toNat % 16)]
  else String.mk [c]

/-- `JSON.stringify` rendering of a string literal. -/
def jsonQuote (s : String) : String :=
  "\"" ++ String.join (s.data.map jsonEscapeChar) ++ "\""

mutual

/-- `JSON.stringify(v)` (no indentation), as used at src/index.js:1115 to
build the published message buffer. -/
def Json.stringify : Json → String
  | .null => "null"
  | .bool true => "true"
  | .bool false => "false"
  | .num n => toString n
  | .str s => jsonQuote s
  | .arr xs => "[" ++ Json.stringifyElems xs ++ "]"
  | .obj fs => "\x7b" ++ Json.stringifyFields fs ++ "\x7d"

/-- Comma-separated serialization of array elements. -/
def Json.stringifyElems : List Json → String
  | [] => ""
  | [x] => Json.stringify x
  | x :: y :: xs => Json.stringify x ++ "," ++ Json.stringifyElems (y :: xs)

/-- Comma-separated serialization of object fields (insertion order). -/
def Json.stringifyFields : List (String × Json) → String
  | [] => ""
  | [(k, v)] => jsonQuote k ++ ":" ++ Json.stringify v
  | (k, v) :: f :: fs =>
    jsonQuote k ++ ":" ++ Json.stringify v ++ "," ++ Json.stringifyFields (f :: fs)

end

/-- JS falsiness of a parsed JSON value (`!payload` at src/index.js:1098):
`null`, `false`, `0` and `""` are falsy; objects and arrays are always
truthy. -/
def Json.isFalsy : Json → Bool
  | .null => true
  | .bool b => !b
  | .num n => n == 0
  | .str s => s == ""
  | .arr _ => false
  | .obj _ => false

/-- JS `typeof payload === "object"` (src/index.js:1098): true for objects,
arrays and `null`. -/
def Json.typeofIsObject : Json → Bool
  | .null => true
  | .arr _ => true
  | .obj _ => true
  | _ => false

/-! ## CIDR matching (`isIPInCIDR`, src/index.js:278-318) -/

/-- The `range` component of `const [range, bits] = cidr.split('/')`. -/
def cidrRange (cidr : String) : String :=
  (jsSplitChar '/' cidr).headD ""

/-- The `bits` component of `const [range, bits] = cidr.split('/')`
(`undefined` when the CIDR has no slash). -/
def cidrBits (cidr : String) : Option String :=
  (jsSplitChar '/' cidr)[1]?

/-- `ToInt32(Math.pow(2, k) - 1)` for an integer exponent `k`.
For `k < 0` the JS value `2^k - 1` is a fraction in `(-1, 0]`, which
`ToInt32` truncates to `0`; for `0 ≤ k ≤ 53` the float arithmetic is exact;
for `k ≥ 54` the subtraction rounds back to `2^k` in double precision. -/
def pow2Sub1AsInt32 (k : Int) : Int :=
  if k < 0 then 0
  else if k ≤ 53 then toInt32 ((2 : Int) ^ k.toNat - 1)
  else toInt32 ((2 : Int) ^ k.toNat)

/-- The IPv4 mask `~(Math.pow(2, 32 - maskBits) - 1) >>> 0`
(src/index.js:287).  When `maskBits` is `NaN` the chain
`32 - NaN = NaN`, `Math.pow(2, NaN) = NaN`, `NaN - 1 = NaN`,
`~NaN = ~ToInt32(NaN) = ~0 = -1`, `-1 >>> 0 = 4294967295` yields the full
mask. -/
def ipv4Mask : Option Int → Int
  | none => 4294967295
  | some m => jsUshrZero (jsNot32 (pow2Sub1AsInt32 (32 - m)))

/-- `(p[0] << 24) + (p[1] << 16) + (p[2] << 8) + p[3]` (src/index.js:288).
The first three parts pass through `<<` (so `NaN`/missing becomes `0`); the
last part is added unshifted, so a `NaN`/missing fourth part makes the whole
sum `NaN`. -/
def ipv4Num (parts : List (Option Int)) : Option Int :=
  match parts[3]? with
  | none => none
  | some none => none
  | some (some d) =>
    some (jsShl (parts[0]?.getD none) 24 + jsShl (parts[1]?.getD none) 16 +
          jsShl (parts[2]?.getD none) 8 + d)

/-- The IPv4 branch of `isIPInCIDR` (src/index.js:284-291):
`(ipNum & mask) === (rangeNum & mask)`.  JS `&` applies `ToInt32` to both
operands; comparing the unsigned 32-bit patterns is equivalent. -/
def ipv4Check (ip range : String) (maskBits : Option Int) : Bool :=
  let ipParts := (jsSplitChar '.' ip).map jsNumber
  let rangeParts := (jsSplitChar '.' range).map jsNumber
  let mask := ipv4Mask maskBits
  Nat.land (jsToUint32 (ipv4Num ipParts)) (toUint32 mask) ==
    Nat.land (jsToUint32 (ipv4Num rangeParts)) (toUint32 mask)

/-- JS `str.split('::')`: split on the two-character separator, leftmost
match first.  Fuel-based structural recursion; the fuel is always at least
the length of the list at the call sites. -/
def splitDoubleColon (fuel : Nat) (cs : List Char) : List (List Char) :=
  match fuel, cs with
  | 0, rest => [rest]
  | _, [] => [[]]
  | f + 1, ':' :: ':' :: rest => [] :: splitDoubleColon f rest
  | f + 1, c :: rest =>
    match splitDoubleColon f rest with
    | [] => [[c]]
    | y :: ys => (c :: y) :: ys

/-- `normalizeIPv6` (src/index.js:296-305): expand one `::` into the missing
zero groups.  When the address has more than 8 groups around a `::`, the JS
code evaluates `Array(zeros)` with a negative argument, which throws a
`RangeError`; the outer `try`/`catch` of `isIPInCIDR` turns that into
`false`, modelled here by `none`. -/
def normalizeIPv6 (addr : String) : Option String :=
  let parts := splitDoubleColon (addr.data.length + 1) addr.data
  if parts.length == 2 then
    let left := ((jsSplitCharList ':' (parts.headD [])).filter
      (fun p => !p.isEmpty)).map String.mk
    let right := ((jsSplitCharList ':' (parts.getD 1 [])).filter
      (fun p => !p.isEmpty)).map String.mk
    let zeros : Int := 8 - (left.length : Int) - (right.length : Int)
    if zeros < 0 then none
    else some (String.intercalate ":"
      (left ++ List.replicate zeros.toNat "0" ++ right))
  else some addr

/-- `array.slice(0, Math.floor(maskBits / 16))` (src/index.js:309-310).
`Math.floor(NaN / 16) = NaN` and `slice(0, NaN)` keeps nothing; a negative
end index counts from the end of the array. -/
def jsSliceFloorDiv16 (l : List String) (maskBits : Option Int) : List String :=
  match maskBits with
  | none => []
  | some m =>
    let e := Int.fdiv m 16
    if e < 0 then l.take ((l.length : Int) + e).toNat
    else l.take e.toNat

/-- The IPv6 branch of `isIPInCIDR` (src/index.js:294-311): compare the
`Math.floor(maskBits/16)` leading groups of the normalized addresses. -/
def ipv6Check (ip range : String) (maskBits : Option Int) : Bool :=
  match normalizeIPv6 ip, normalizeIPv6 range with
  | some ipNorm, some rangeNorm =>
    let ipHead := String.intercalate ":"
      (jsSliceFloorDiv16 (jsSplitChar ':' ipNorm) maskBits)
    let rangeHead := String.intercalate ":"
      (jsSliceFloorDiv16 (jsSplitChar ':' rangeNorm) maskBits)
    ipHead == rangeHead
  | _, _ => false

/-- `isIPInCIDR(ip, cidr)` (src/index.js:278-318).  The IPv4 branch runs
when both the address and the range contain a dot, the IPv6 branch when both
contain a colon; otherwise the function returns `false`.  Exceptions inside
the `try` block (the `Array(negative)` case of `normalizeIPv6`) are caught
and also yield `false`. -/
def isIPInCIDR (ip cidr : String) : Bool :=
  let range := cidrRange cidr
  let maskBits := jsParseInt (cidrBits cidr)
  if jsIncludes ip '.' && jsIncludes range '.' then
    ipv4Check ip range maskBits
  else if jsIncludes ip ':' && jsIncludes range ':' then
    ipv6Check ip range maskBits
  else false

/-- The static Meta/Facebook address allow-list (src/index.js:345-362). -/
def META_IP_RANGES : List String :=
  ["2a03:2880::/32", "2620:0:1c00::/40",
   "31.13.24.0/21", "31.13.64.0/18", "66.220.144.0/20", "69.63.176.0/20",
   "69.171.224.0/19", "74.119.76.0/22", "103.4.96.0/22", "157.240.0.0/16",
   "173.252.64.0/18", "179.60.192.0/22", "185.60.216.0/22", "204.15.20.0/22"]

/-- `isValidMetaIP(ip)` (src/index.js:341-365).  The argument may be
`null`/`undefined` (`none`); `if (!ip) return false` also rejects the empty
string. -/
def isValidMetaIP (ip : Option String) : Bool :=
  if !optTruthy ip then false
  else META_IP_RANGES.any (fun range => isIPInCIDR (ip.getD "") range)

/-! ## HMAC signature validation (`validateHubSignature`, src/index.js:378-408) -/

/-- Hexadecimal digit value accepted by `Buffer.from(str, 'hex')`. -/
def hexDigitVal? (c : Char) : Option Nat :=
  if '0' ≤ c ∧ c ≤ '9' then some (c.toNat - '0'.toNat)
  else if 'a' ≤ c ∧ c ≤ 'f' then some (c.toNat - 'a'.toNat + 10)
  else if 'A' ≤ c ∧ c ≤ 'F' then some (c.toNat - 'A'.toNat + 10)
  else none

/-- `Buffer.from(str, 'hex')`: decode full hex pairs, stopping at the first
invalid character or odd trailing digit. -/
def hexDecodeList : List Char → List Nat
  | a :: b :: rest =>
    match hexDigitVal? a, hexDigitVal? b with
    | some x, some y => (16 * x + y) :: hexDecodeList rest
    | _, _ => []
  | _ => []

/-- `signature.replace(/^sha256=/, '')`: strip one leading `sha256=`. -/
def dropSha256Scheme (s : String) : String :=
  if s.data.take 7 == "sha256=".data then String.mk (s.data.drop 7) else s

/-- `validateHubSignature(signature, body, secret)` (src/index.js:378-408).
`hmacHex` stands for `crypto.createHmac('sha256', secret).update(body)
.digest('hex')`.  `crypto.timingSafeEqual` throws when the buffers have
different lengths; the surrounding `try`/`catch` converts that to `false`. -/
def validateHubSignature (hmacHex : String → String → String)
    (signature : Option String) (body : String) (secret : Option String) :
    Bool :=
  if !optTruthy signature || !optTruthy secret then false
  else
    let receivedHash := dropSha256Scheme (signature.getD "")
    let calculatedHash := hmacHex (secret.getD "") body
    let recvBytes := hexDecodeList receivedHash.data
    let calcBytes := hexDecodeList calculatedHash.data
    if recvBytes.length != calcBytes.length then false
    else recvBytes == calcBytes

/-! ## Configuration and HTTP model -/

/-- Expected Meta crawler user agent (src/index.js:433). -/
def META_USER_AGENT : String := "facebookexternalua"

/-- Default exchange name (src/index.js:418). -/
def EXCHANGE : String := "whatsapp.events"

/-- Default routing key (src/index.js:420). -/
def ROUTING_KEY : String := "whatsapp.incoming"

/-- The environment-derived configuration the handlers read
(src/index.js:413-433).  `webhookSecret` is `WEBHOOK_SECRET`, `appSecret` is
`APP_SECRET`; both are string-or-undefined.  `metaIpValidationMode` is
`META_IP_VALIDATION_MODE` (default `"monitor"`), `isProduction` is
`NODE_ENV === "production"`. -/
structure Config where
  webhookSecret : Option String
  appSecret : Option String
  metaIpValidationMode : String
  isProduction : Bool
deriving DecidableEq

/-- One inbound POST request, as observed by the raw-body middleware and the
POST handler.  `rawBody` is the raw byte buffer (modelled as a string);
`bodyParse` is the outcome of `JSON.parse(rawBody)` in the middleware at
src/index.js:624-642 (`none` when the body does not parse as JSON);
`userAgent` is `req.get("user-agent")`; `signature` is the
`x-hub-signature-256` header; `clientIp` is the address resolved by
`getClientIP` (src/index.js:326-333), which always yields a string;
`authorization` is the `Authorization` header. -/
structure PostRequest where
  rawBody : String
  bodyParse : Option Json
  userAgent : Option String
  signature : Option String
  clientIp : String
  authorization : Option String

/-- Query parameters of a GET verification request
(src/index.js:846-848): `hub.mode`, `hub.challenge`, `hub.verify_token`. -/
structure GetQuery where
  mode : Option String
  challenge : Option String
  verifyToken : Option String
deriving DecidableEq

/-- The broker-facing state a request observes: whether `channel` is
non-null, and whether the next `channel.publish` call returns `true` (the
client-side write buffer accepts the message). -/
structure BrokerState where
  channel : Bool
  bufferAccepts : Bool
deriving DecidableEq

/-- An HTTP response: status code, content type and body.  JSON responses
carry the `JSON.stringify` of the object literal passed to `res.json`
(the `charset` suffix Express appends to the content type is omitted). -/
structure WebResponse where
  status : Nat
  contentType : String
  body : String
deriving DecidableEq

/-- One `channel.publish` call (src/index.js:1116-1125): exchange, routing
key, message buffer, the `persistent` flag, the content type and whether a
`timestamp` property was supplied (its value, `Date.now()`, is abstracted to
presence). -/
structure Publish where
  exchange : String
  routingKey : String
  body : String
  persistent : Bool
  contentType : String
  hasTimestamp : Bool
deriving DecidableEq

/-- The request body the POST handler sees: the middleware result, with a
parse failure replaced by the empty object (`req.body = {}` in the `catch`
at src/index.js:634). -/
def effectiveBody : Option Json → Json
  | some v => v
  | none => .obj []

/-! ### Response constants -/

/-- `res.sendStatus(200)`: Express sends the status text `OK` as
`text/plain`. -/
def okResp : WebResponse := ⟨200, "text/plain", "OK"⟩

/-- 403 body of the aggressive signature/user-agent validation
(src/index.js:1021-1024). -/
def forbiddenResp : WebResponse :=
  ⟨403, "application/json",
   "\x7b\"error\":\"Forbidden\",\"message\":\"Requisição não autorizada\"\x7d"⟩

/-- 403 body of the IP allow-list block (src/index.js:1051-1054). -/
def forbiddenIpResp : WebResponse :=
  ⟨403, "application/json",
   "\x7b\"error\":\"Forbidden\",\"message\":\"IP de origem não autorizado\"\x7d"⟩

/-- 503 body when no channel is available (src/index.js:1089-1092). -/
def rabbitUnavailableResp : WebResponse :=
  ⟨503, "application/json",
   "\x7b\"error\":\"RabbitMQ indisponível\",\"message\":\"Serviço temporariamente indisponível\"\x7d"⟩

/-- 400 body for a non-object payload (src/index.js:1108-1111). -/
def invalidPayloadResp : WebResponse :=
  ⟨400, "application/json",
   "\x7b\"error\":\"Payload inválido\",\"message\":\"Payload deve ser um objeto JSON\"\x7d"⟩

/-- 503 body when the client write buffer rejects the publish
(src/index.js:1136-1139). -/
def enqueueFailedResp : WebResponse :=
  ⟨503, "application/json",
   "\x7b\"error\":\"Falha ao enfileirar\",\"message\":\"RabbitMQ temporariamente indisponível\"\x7d"⟩

/-- 401 body when the `Authorization` header is missing
(src/index.js:720-723). -/
def missingTokenResp : WebResponse :=
  ⟨401, "application/json",
   "\x7b\"error\":\"Unauthorized\",\"message\":\"Token de autenticação não fornecido\"\x7d"⟩

/-- 401 body when the `Authorization` header is not `Bearer <token>`
(src/index.js:741-744). -/
def badFormatResp : WebResponse :=
  ⟨401, "application/json",
   "\x7b\"error\":\"Unauthorized\",\"message\":\"Formato de token inválido. Use: Authorization: Bearer TOKEN\"\x7d"⟩

/-- 401 body when the bearer token mismatches (src/index.js:765-768). -/
def invalidTokenResp : WebResponse :=
  ⟨401, "application/json",
   "\x7b\"error\":\"Unauthorized\",\"message\":\"Token inválido\"\x7d"⟩

/-- 400 response of the GET handler for a wrong `hub.mode`
(src/index.js:885-887). -/
def invalidModeResp : WebResponse := ⟨400, "text/plain", "Invalid mode"⟩

/-- 403 response of the GET handler for a wrong `hub.verify_token`
(src/index.js:910-912). -/
def invalidVerifyTokenResp : WebResponse :=
  ⟨403, "text/plain", "Invalid verify token"⟩

/-- 400 response of the GET handler for a missing `hub.challenge`
(src/index.js:936-938). -/
def missingChallengeResp : WebResponse :=
  ⟨400, "text/plain", "Missing challenge"⟩

/-! ### GET /webhook/whatsapp — verification handshake
(src/index.js:841-963) -/

/-- Challenge stage of the GET handler (src/index.js:926-962): reject a
falsy `hub.challenge` with 400, otherwise echo `String(challenge)` verbatim
as `text/plain` via `res.end`. -/
def webhookGetChallengeStage (q : GetQuery) : WebResponse :=
  if !optTruthy q.challenge then missingChallengeResp
  else ⟨200, "text/plain", q.challenge.getD ""⟩

/-- The GET /webhook/whatsapp handler (src/index.js:841-963):
`hub.mode` must be exactly `subscribe` (400 otherwise); when
`WEBHOOK_SECRET` is truthy, `hub.verify_token` must be truthy and equal to
it (403 otherwise); when it is not configured, the token check is skipped;
finally the challenge is echoed. -/
def webhookGet (cfg : Config) (q : GetQuery) : WebResponse :=
  if !(q.mode == some "subscribe") then invalidModeResp
  else if optTruthy cfg.webhookSecret then
    if !(optTruthy q.verifyToken && q.verifyToken == cfg.webhookSecret) then
      invalidVerifyTokenResp
    else webhookGetChallengeStage q
  else webhookGetChallengeStage q

/-! ### POST /webhook/whatsapp — event delivery (src/index.js:985-1175) -/

/-- `hasValidSignature` (src/index.js:999-1006): computed only when both
`APP_SECRET` and the signature header are truthy, via
`validateHubSignature(signature, rawBody, APP_SECRET)`. -/
def hasValidSignatureFor (hmacHex : String → String → String)
    (appSecret : Option String) (req : PostRequest) : Bool :=
  if optTruthy appSecret && optTruthy req.signature then
    validateHubSignature hmacHex req.signature req.rawBody appSecret
  else false

/-- `hasValidUserAgent` (src/index.js:1000): strict equality of the
`user-agent` header with the Meta constant. -/
def hasValidUserAgentFor (req : PostRequest) : Bool :=
  req.userAgent == some META_USER_AGENT

/-- Whether the origin-address stage blocks the request
(src/index.js:1028-1066): only in `block` mode, for an address outside the
allow-list, and only in production; `monitor` mode and development only
log. -/
def ipBlocked (cfg : Config) (req : PostRequest) : Bool :=
  cfg.metaIpValidationMode == "block" &&
    !isValidMetaIP (some req.clientIp) && cfg.isProduction

/-- The publish step (src/index.js:1114-1155): serialize the payload,
publish it with `persistent: true`, `contentType: "application/json"` and a
`timestamp`, then answer 503 on buffer rejection or 200 on acceptance.  The
publish call happens in both cases. -/
def relayPublish (payload : Json) (s : BrokerState) :
    WebResponse × List Publish :=
  let pub : Publish :=
    ⟨EXCHANGE, ROUTING_KEY, Json.stringify payload, true, "application/json",
     true⟩
  if s.bufferAccepts then (okResp, [pub]) else (enqueueFailedResp, [pub])

/-- The relay core shared by both deployment variants
(src/index.js:1083-1155 and, identically, the second variant's POST
handler): 503 when no channel is available, 400 when the payload is falsy or
not `typeof "object"`, otherwise publish. -/
def relayCore (body : Json) (s : BrokerState) : WebResponse × List Publish :=
  if !s.channel then (rabbitUnavailableResp, [])
  else if body.isFalsy || !body.typeofIsObject then (invalidPayloadResp, [])
  else relayPublish body s

/-- The POST handler after the aggressive signature/user-agent gate
(src/index.js:1027-1155): the optional IP block, then the relay core on
`req.body`. -/
def webhookPostAfterAuth (cfg : Config) (req : PostRequest)
    (s : BrokerState) : WebResponse × List Publish :=
  if ipBlocked cfg req then (forbiddenIpResp, [])
  else relayCore (effectiveBody req.bodyParse) s

/-- The POST /webhook/whatsapp handler (src/index.js:985-1175): reject with
403 when the request has neither a valid signature nor the expected user
agent (src/index.js:1009-1025); otherwise continue with the IP stage and the
relay core. -/
def webhookPost (cfg : Config) (hmacHex : String → String → String)
    (req : PostRequest) (s : BrokerState) : WebResponse × List Publish :=
  if !hasValidSignatureFor hmacHex cfg.appSecret req &&
      !hasValidUserAgentFor req then
    (forbiddenResp, [])
  else webhookPostAfterAuth cfg req s

/-! ### GET /health (src/index.js:800-815) -/

/-- The /health response: status code plus the `status` and `rabbitmq`
fields of the JSON body (the `timestamp` field is wall-clock output and is
abstracted away). -/
structure HealthResp where
  status : Nat
  statusTag : String
  rabbit : String
deriving DecidableEq

/-- The GET /health handler (src/index.js:800-815): 503 with
`rabbit_disconnected` when `channel` is null, 200 with `ok` otherwise. -/
def healthGet (s : BrokerState) : HealthResp :=
  if !s.channel then ⟨503, "rabbit_disconnected", "disconnected"⟩
  else ⟨200, "ok", "connected"⟩

/-! ### Bearer-token middleware (`validateWebhookSecret`,
src/index.js:686-782) -/

/-- Outcome of an Express middleware: pass the request on, or answer. -/
inductive AuthResult where
  | next : AuthResult
  | reject : WebResponse → AuthResult
deriving DecidableEq

/-- JS `header.split(" ")` (src/index.js:727). -/
def jsSplitSpace (s : String) : List String := jsSplitChar ' ' s

/-- `validateWebhookSecret` (src/index.js:686-782): when `WEBHOOK_SECRET` is
not truthy every request passes; otherwise a falsy `Authorization` header,
a header that is not exactly `Bearer <token>`, and a token different from
the secret produce three distinct 401 responses. -/
def validateWebhookSecret (secret : Option String)
    (authHeader : Option String) : AuthResult :=
  if !optTruthy secret then .next
  else if !optTruthy authHeader then .reject missingTokenResp
  else
    let parts := jsSplitSpace (authHeader.getD "")
    if parts.length != 2 || !(parts.headD "" == "Bearer") then
      .reject badFormatResp
    else if !(parts.getD 1 "" == secret.getD "") then .reject invalidTokenResp
    else .next

/-- The simple deployment variant: the bearer middleware in front of the
relay core (the second variant of index.js, whose POST handler is exactly
the relay core). -/
def bearerVariantPost (secret authHeader : Option String) (body : Json)
    (s : BrokerState) : WebResponse × List Publish :=
  match validateWebhookSecret secret authHeader with
  | .reject r => (r, [])
  | .next => relayCore body s

/-! ### Module state and repeated GET runs (for idempotence) -/

/-- The module-level mutable variables of src/index.js:451-455 that a
handler could observe or write: `channel` (non-null?), `isConnecting` and
`retryCount`. -/
structure ModuleState where
  channel : Bool
  isConnecting : Bool
  retryCount : Nat
deriving DecidableEq

/-- State-passing translation of the GET handler: the source handler at
src/index.js:841-963 reads only its own query parameters and the constant
configuration, and assigns none of the module-level variables, so the state
comes back unchanged. -/
def webhookGetStateful (cfg : Config) (q : GetQuery) (st : ModuleState) :
    WebResponse × ModuleState :=
  (webhookGet cfg q, st)

/-- Run the GET handler `n` times in sequence, threading the module state
and collecting the responses. -/
def runGetN (cfg : Config) (q : GetQuery) :
    Nat → ModuleState → List WebResponse × ModuleState
  | 0, st => ([], st)
  | n + 1, st =>
    let (r, st') := webhookGetStateful cfg q st
    let (rs, st'') := runGetN cfg q n st'
    (r :: rs, st'')

/-! ## Concrete sample values used by witnesses and counterexamples -/

/-- A default configuration: no secrets, `monitor` IP mode, production. -/
def sampleCfg : Config := ⟨none, none, "monitor", true⟩

/-- A configuration with a shared webhook secret. -/
def secretCfg : Config := ⟨some "tok123", none, "monitor", true⟩

/-- A stand-in for the HMAC-SHA256 oracle in concrete runs. -/
def dummyHmac : String → String → String := fun _ _ => ""

/-- A request carrying the Meta user agent; `rawbytes` is not valid JSON,
matching the `bodyParse` outcome supplied per scenario. -/
def uaRequest (bp : Option Json) : PostRequest :=
  ⟨"rawbytes", bp, some META_USER_AGENT, none, "203.0.113.9", none⟩

/-- A request with neither a signature header nor the Meta user agent. -/
def bareRequest : PostRequest :=
  ⟨"rawbytes", some (Json.obj []), none, none, "203.0.113.9", none⟩

/-! ## Claims -/

/-- Claim C1: for every valid JSON-object payload `P`, a POST to the relay
endpoint with satisfied authorization and a live broker channel responds 200
and performs exactly one publish call whose message body equals the JSON
serialization of `P`, with the persistence flag set and a timestamp
property. -/
theorem c1_valid_object_relay (cfg : Config)
    (hmacHex : String → String → String) (req : PostRequest)
    (s : BrokerState) (fs : List (String × Json))
    (hauth : hasValidSignatureFor hmacHex cfg.appSecret req = true ∨
             hasValidUserAgentFor req = true)
    (hip : ipBlocked cfg req = false)
    (hch : s.channel = true) (hbuf : s.bufferAccepts = true)
    (hbody : req.bodyParse = some (Json.obj fs)) :
    webhookPost cfg hmacHex req s =
      (okResp,
       [⟨EXCHANGE, ROUTING_KEY, Json.stringify (Json.obj fs), true,
         "application/json", true⟩]) := by
  unfold webhookPost webhookPostAfterAuth relayCore relayPublish
  rcases hauth with h | h <;>
    simp [h, hip, hch, hbuf, hbody, effectiveBody, Json.isFalsy,
      Json.typeofIsObject]

/-- Witness for C1 at a concrete payload `{"a":1}`. -/
theorem c1_valid_object_relay_witness :
    webhookPost sampleCfg dummyHmac
        (uaRequest (some (Json.obj [("a", Json.num 1)]))) ⟨true, true⟩ =
      (okResp,
       [⟨EXCHANGE, ROUTING_KEY, Json.stringify (Json.obj [("a", Json.num 1)]),
         true, "application/json", true⟩]) :=
  c1_valid_object_relay sampleCfg dummyHmac _ _ [("a", Json.num 1)]
    (Or.inr (by decide)) (by decide) rfl rfl rfl

/-- Claim C2 counterexample: the claim says a POST whose body does not parse
as JSON is answered 400 with zero publish calls.  Here the body does not
parse (`bodyParse = none`, raw bytes `rawbytes`), authorization is satisfied
via the user agent and the channel is live, yet the relay answers 200 and
performs one publish: the raw-body middleware replaces an unparseable body
by `{}` (src/index.js:631-635), so the 400 branch never sees it. -/
theorem c2_counterexample :
    (webhookPost sampleCfg dummyHmac (uaRequest none) ⟨true, true⟩).1.status
        = 200 ∧
    (webhookPost sampleCfg dummyHmac (uaRequest none) ⟨true, true⟩).2.length
        = 1 := by
  decide

/-- Claim C2 (amended): for every POST request whose body does not parse as
JSON, the middleware substitutes the empty object, so with satisfied
authorization and a live, accepting broker channel the relay responds 200
and performs exactly one publish call whose body is the serialization `{}`;
the request is never rejected with 400 for unparseability. -/
theorem c2_amended_unparseable_published (cfg : Config)
    (hmacHex : String → String → String) (req : PostRequest)
    (s : BrokerState)
    (hparse : req.bodyParse = none)
    (hauth : hasValidSignatureFor hmacHex cfg.appSecret req = true ∨
             hasValidUserAgentFor req = true)
    (hip : ipBlocked cfg req = false)
    (hch : s.channel = true) (hbuf : s.bufferAccepts = true) :
    webhookPost cfg hmacHex req s =
      (okResp,
       [⟨EXCHANGE, ROUTING_KEY, "\x7b\x7d", true, "application/json",
         true⟩]) := by
  unfold webhookPost webhookPostAfterAuth relayCore relayPublish
  rcases hauth with h | h <;>
    simp [h, hip, hch, hbuf, hparse, effectiveBody, Json.isFalsy,
      Json.typeofIsObject, Json.stringify, Json.stringifyFields]

/-- Witness for the amended C2 at a concrete unparseable body. -/
theorem c2_amended_unparseable_published_witness :
    webhookPost sampleCfg dummyHmac (uaRequest none) ⟨true, true⟩ =
      (okResp,
       [⟨EXCHANGE, ROUTING_KEY, "\x7b\x7d", true, "application/json",
         true⟩]) :=
  c2_amended_unparseable_published sampleCfg dummyHmac _ _ rfl
    (Or.inr (by decide)) (by decide) rfl rfl

/-- Claim C3 counterexample: the claim says every valid-JSON non-object
payload — including an array — is answered 400 with zero publishes.  Here
the payload is the array `[1]` (with authorization satisfied and a live
channel): JS `typeof [] === "object"`, so the array passes the payload check
and is published, and the relay answers 200 with one publish call. -/
theorem c3_counterexample :
    webhookPost sampleCfg dummyHmac (uaRequest (some (Json.arr [Json.num 1])))
        ⟨true, true⟩ =
      (okResp,
       [⟨EXCHANGE, ROUTING_KEY, "[1]", true, "application/json", true⟩]) := by
  decide

/-- Claim C3 (amended): for every POST payload that is valid JSON but not an
object, given satisfied authorization and a live channel: a string, a
number, `null` or a boolean is rejected with 400 and zero publish calls, but
an array passes the `typeof` check and is published with response 200. -/
theorem c3_amended_nonobject_payloads (cfg : Config)
    (hmacHex : String → String → String) (req : PostRequest)
    (s : BrokerState) (v : Json)
    (hauth : hasValidSignatureFor hmacHex cfg.appSecret req = true ∨
             hasValidUserAgentFor req = true)
    (hip : ipBlocked cfg req = false)
    (hch : s.channel = true)
    (hbody : req.bodyParse = some v) :
    ((v = .null ∨ (∃ n, v = .num n) ∨ (∃ t, v = .str t) ∨
      (∃ b, v = .bool b)) →
        webhookPost cfg hmacHex req s = (invalidPayloadResp, [])) ∧
    (∀ xs, v = .arr xs → s.bufferAccepts = true →
        webhookPost cfg hmacHex req s =
          (okResp,
           [⟨EXCHANGE, ROUTING_KEY, Json.stringify (Json.arr xs), true,
             "application/json", true⟩])) := by
  constructor
  · intro hv
    unfold webhookPost webhookPostAfterAuth relayCore
    rcases hv with h | ⟨n, h⟩ | ⟨t, h⟩ | ⟨b, h⟩ <;> subst h <;>
      rcases hauth with ha | ha <;>
        simp [ha, hip, hch, hbody, effectiveBody, Json.isFalsy,
          Json.typeofIsObject]
  · intro xs hv hbuf
    subst hv
    unfold webhookPost webhookPostAfterAuth relayCore relayPublish
    rcases hauth with ha | ha <;>
      simp [ha, hip, hch, hbuf, hbody, effectiveBody, Json.isFalsy,
        Json.typeofIsObject]

/-- Witness for the amended C3: `null` is rejected with 400 and no publish;
the array `[2]` is published with 200. -/
theorem c3_amended_nonobject_payloads_witness :
    webhookPost sampleCfg dummyHmac (uaRequest (some Json.null)) ⟨true, true⟩
        = (invalidPayloadResp, []) ∧
    webhookPost sampleCfg dummyHmac (uaRequest (some (Json.arr [Json.num 2])))
        ⟨true, true⟩ =
      (okResp,
       [⟨EXCHANGE, ROUTING_KEY, Json.stringify (Json.arr [Json.num 2]), true,
         "application/json", true⟩]) :=
  ⟨(c3_amended_nonobject_payloads sampleCfg dummyHmac _ _ Json.null
      (Or.inr (by decide)) (by decide) rfl rfl).1 (Or.inl rfl),
   (c3_amended_nonobject_payloads sampleCfg dummyHmac _ _
      (Json.arr [Json.num 2]) (Or.inr (by decide)) (by decide) rfl rfl).2
     [Json.num 2] rfl rfl⟩

/-- Claim C4: on the event-delivery POST path, if the request has neither a
valid HMAC signature nor the expected user agent the relay rejects with 403
and no publish occurs; if either check passes, processing proceeds to the
rest of the handler (a signature mismatch alone is not an immediate
rejection). -/
theorem c4_aggressive_gate (cfg : Config)
    (hmacHex : String → String → String) (req : PostRequest)
    (s : BrokerState) :
    ((hasValidSignatureFor hmacHex cfg.appSecret req = false ∧
      hasValidUserAgentFor req = false) →
        webhookPost cfg hmacHex req s = (forbiddenResp, []) ∧
        forbiddenResp.status = 403) ∧
    ((hasValidSignatureFor hmacHex cfg.appSecret req = true ∨
      hasValidUserAgentFor req = true) →
        webhookPost cfg hmacHex req s = webhookPostAfterAuth cfg req s) := by
  constructor
  · intro ⟨h1, h2⟩
    unfold webhookPost
    simp [h1, h2, forbiddenResp]
  · intro h
    unfold webhookPost
    rcases h with h | h <;> simp [h]

/-- Witness for C4: a request with neither credential is rejected with 403
and no publish; a request with only the user agent (no signature at all)
proceeds into the rest of the handler. -/
theorem c4_aggressive_gate_witness :
    (webhookPost sampleCfg dummyHmac bareRequest ⟨true, true⟩ =
        (forbiddenResp, []) ∧ forbiddenResp.status = 403) ∧
    webhookPost sampleCfg dummyHmac (uaRequest (some (Json.obj [])))
        ⟨true, true⟩ =
      webhookPostAfterAuth sampleCfg (uaRequest (some (Json.obj [])))
        ⟨true, true⟩ :=
  ⟨(c4_aggressive_gate sampleCfg dummyHmac bareRequest ⟨true, true⟩).1
     ⟨by decide, by decide⟩,
   (c4_aggressive_gate sampleCfg dummyHmac (uaRequest (some (Json.obj [])))
      ⟨true, true⟩).2 (Or.inr (by decide))⟩

/-- Claim C5: under the bearer-token check, when a shared secret is
configured a POST whose bearer token does not exactly equal the secret
yields 401 with zero publish calls; a missing authorization header, a
non-Bearer scheme and a token mismatch are three distinct 401 outcomes;
when no shared secret is configured every request passes the check, so a
POST with no Authorization header at all reaches the 200 path given a live
connection. -/
theorem c5_bearer_token_check (sec a tok : String) (auth : Option String)
    (body : Json) (s : BrokerState) :
    (sec ≠ "" → jsSplitSpace a = ["Bearer", tok] → tok ≠ sec →
        bearerVariantPost (some sec) (some a) body s =
          (invalidTokenResp, [])) ∧
    (sec ≠ "" →
        validateWebhookSecret (some sec) none = .reject missingTokenResp) ∧
    (sec ≠ "" → a ≠ "" →
        ((jsSplitSpace a).length ≠ 2 ∨ (jsSplitSpace a).headD "" ≠ "Bearer") →
        validateWebhookSecret (some sec) (some a) = .reject badFormatResp) ∧
    (missingTokenResp.status = 401 ∧ badFormatResp.status = 401 ∧
     invalidTokenResp.status = 401 ∧ missingTokenResp ≠ badFormatResp ∧
     missingTokenResp ≠ invalidTokenResp ∧ badFormatResp ≠ invalidTokenResp) ∧
    (validateWebhookSecret none auth = .next) ∧
    (s.channel = true → s.bufferAccepts = true →
        bearerVariantPost none auth (Json.obj []) s =
          (okResp,
           [⟨EXCHANGE, ROUTING_KEY, Json.stringify (Json.obj []), true,
             "application/json", true⟩])) := by
  refine ⟨?_, ?_, ?_, by decide, ?_, ?_⟩
  · intro hsec hsplit htok
    have ha : a ≠ "" := by
      intro h
      subst h
      simp [jsSplitSpace, jsSplitChar, jsSplitCharList] at hsplit
    unfold bearerVariantPost validateWebhookSecret
    simp [optTruthy, hsec, ha, hsplit, htok]
  · intro hsec
    unfold validateWebhookSecret
    simp [optTruthy, hsec]
  · intro hsec ha hform
    unfold validateWebhookSecret
    simp [optTruthy, hsec, ha]
    intro h1 h2
    rcases hform with h | h
    · exact absurd h1 h
    · exact absurd h2 (by simpa using h)
  · unfold validateWebhookSecret
    simp [optTruthy]
  · intro hch hbuf
    unfold bearerVariantPost validateWebhookSecret relayCore relayPublish
    simp [optTruthy, hch, hbuf, Json.isFalsy, Json.typeofIsObject]

/-- Witness for C5: with the secret configured, `Bearer wrong` is rejected
with the token-mismatch 401 and no publish; without a secret, a POST with no
Authorization header and a live connection reaches the 200 path. -/
theorem c5_bearer_token_check_witness :
    bearerVariantPost (some "tok123") (some "Bearer wrong") (Json.obj [])
        ⟨true, true⟩ = (invalidTokenResp, []) ∧
    validateWebhookSecret (some "tok123") none = .reject missingTokenResp ∧
    validateWebhookSecret (some "tok123") (some "Basic tok123") =
        .reject badFormatResp ∧
    bearerVariantPost none none (Json.obj []) ⟨true, true⟩ =
      (okResp,
       [⟨EXCHANGE, ROUTING_KEY, Json.stringify (Json.obj []), true,
         "application/json", true⟩]) :=
  ⟨(c5_bearer_token_check "tok123" "Bearer wrong" "wrong" none (Json.obj [])
      ⟨true, true⟩).1 (by decide) (by decide) (by decide),
   (c5_bearer_token_check "tok123" "Bearer wrong" "wrong" none (Json.obj [])
      ⟨true, true⟩).2.1 (by decide),
   (c5_bearer_token_check "tok123" "Basic tok123" "wrong" none (Json.obj [])
      ⟨true, true⟩).2.2.1 (by decide) (by decide) (Or.inr (by decide)),
   (c5_bearer_token_check "tok123" "Bearer wrong" "wrong" none (Json.obj [])
      ⟨true, true⟩).2.2.2.2.2 rfl rfl⟩

/-- Claim C6: on a successful verification handshake (mode `subscribe`,
token check satisfied, challenge present) the response body is byte-identical
to the input challenge string, with status 200 and a plain-text content
type, no surrounding JSON and no trailing newline. -/
theorem c6_challenge_echo (cfg : Config) (q : GetQuery) (c : String)
    (hmode : q.mode = some "subscribe")
    (htok : optTruthy cfg.webhookSecret = true →
        q.verifyToken = cfg.webhookSecret)
    (hch : q.challenge = some c) (hc : c ≠ "") :
    webhookGet cfg q = ⟨200, "text/plain", c⟩ := by
  have hcc : optTruthy (some c) = true := by simp [optTruthy, hc]
  unfold webhookGet webhookGetChallengeStage
  cases hs : optTruthy cfg.webhookSecret with
  | false => simp [hmode, hs, hch, hcc]
  | true =>
    have ht := htok hs
    have htt : optTruthy q.verifyToken = true := ht ▸ hs
    simp [hmode, hs, ht, htt, hch, hcc]

/-- Witness for C6 at a punctuation-laden printable-ASCII challenge. -/
theorem c6_challenge_echo_witness :
    webhookGet secretCfg
        ⟨some "subscribe", some "xyz789!@#$%^&*()_+", some "tok123"⟩ =
      ⟨200, "text/plain", "xyz789!@#$%^&*()_+"⟩ :=
  c6_challenge_echo secretCfg _ "xyz789!@#$%^&*()_+" rfl (fun _ => rfl) rfl
    (by decide)

/-- Claim C7: the verification handshake fails with 400 when the mode is not
`subscribe`, with 403 when a shared secret is configured and the verify
token does not match it, and with 400 when the challenge is missing; when no
shared secret is configured the token check is skipped entirely and any or
no token is accepted. -/
theorem c7_handshake_failures (cfg : Config) (q : GetQuery) (sec : String) :
    (q.mode ≠ some "subscribe" → webhookGet cfg q = invalidModeResp) ∧
    (q.mode = some "subscribe" → cfg.webhookSecret = some sec → sec ≠ "" →
        ¬(optTruthy q.verifyToken = true ∧ q.verifyToken = some sec) →
        webhookGet cfg q = invalidVerifyTokenResp) ∧
    (q.mode = some "subscribe" →
        (optTruthy cfg.webhookSecret = true →
          q.verifyToken = cfg.webhookSecret) →
        optTruthy q.challenge = false →
        webhookGet cfg q = missingChallengeResp) ∧
    (optTruthy cfg.webhookSecret = false → ∀ t : Option String,
        webhookGet cfg ⟨q.mode, q.challenge, t⟩ =
          webhookGet cfg ⟨q.mode, q.challenge, none⟩) := by
  refine ⟨?_, ?_, ?_, ?_⟩
  · intro hmode
    unfold webhookGet
    simp [hmode]
  · intro hmode hsec hne htok
    unfold webhookGet
    have hs : optTruthy (some sec) = true := by simp [optTruthy, hne]
    have hmatch : (optTruthy q.verifyToken && q.verifyToken == some sec)
        = false := by
      rcases h : optTruthy q.verifyToken with _ | _
      · simp
      · rcases h2 : q.verifyToken == some sec with _ | _
        · simp
        · exact absurd ⟨h, by simpa using h2⟩ htok
    simp [hmode, hsec, hs, hmatch]
  · intro hmode htok hch
    unfold webhookGet webhookGetChallengeStage
    by_cases hs : optTruthy cfg.webhookSecret
    · have ht := htok hs
      have htt : optTruthy q.verifyToken = true := ht ▸ hs
      simp [hmode, hs, ht, htt, hch]
    · simp [hmode, hs, hch]
  · intro hs t
    unfold webhookGet webhookGetChallengeStage
    simp [hs]

/-- Witness for C7: a wrong mode gives 400, a wrong token gives 403, a
missing challenge gives 400, and without a configured secret the response is
independent of the verify token. -/
theorem c7_handshake_failures_witness :
    webhookGet secretCfg ⟨some "unsubscribe", some "x", some "tok123"⟩ =
        invalidModeResp ∧
    webhookGet secretCfg ⟨some "subscribe", some "x", some "wrong"⟩ =
        invalidVerifyTokenResp ∧
    webhookGet secretCfg ⟨some "subscribe", none, some "tok123"⟩ =
        missingChallengeResp ∧
    webhookGet sampleCfg ⟨some "subscribe", some "x", some "anything"⟩ =
      webhookGet sampleCfg ⟨some "subscribe", some "x", none⟩ :=
  ⟨(c7_handshake_failures secretCfg ⟨some "unsubscribe", some "x",
      some "tok123"⟩ "tok123").1 (by decide),
   (c7_handshake_failures secretCfg ⟨some "subscribe", some "x",
      some "wrong"⟩ "tok123").2.1 rfl rfl (by decide) (by decide),
   (c7_handshake_failures secretCfg ⟨some "subscribe", none,
      some "tok123"⟩ "tok123").2.2.1 rfl (fun _ => rfl) rfl,
   (c7_handshake_failures sampleCfg ⟨some "subscribe", some "x", none⟩
      "tok123").2.2.2 rfl (some "anything")⟩

/-- Claim C8 counterexample: the claim says that whenever no live broker
channel is available every POST to the relay path responds 503.  With the
channel down, a POST carrying neither a valid signature nor the Meta user
agent is rejected by the authorization gate with 403, not 503 (the gate runs
before the channel check); `/health` does answer 503. -/
theorem c8_counterexample :
    (webhookPost sampleCfg dummyHmac bareRequest ⟨false, true⟩).1.status
        = 403 ∧
    (healthGet ⟨false, true⟩).status = 503 := by
  decide

/-- Claim C8 (amended): whenever no live broker channel is available,
GET /health responds 503, no POST to the relay path ever performs a publish
call, and every POST that passes the signature/user-agent authorization and
is not blocked by the IP stage responds 503; a POST failing those checks
responds 403 instead (still with no publish). -/
theorem c8_amended_broker_down (cfg : Config)
    (hmacHex : String → String → String) (req : PostRequest)
    (s : BrokerState) (hch : s.channel = false) :
    (healthGet s).status = 503 ∧
    (webhookPost cfg hmacHex req s).2 = [] ∧
    ((hasValidSignatureFor hmacHex cfg.appSecret req = true ∨
      hasValidUserAgentFor req = true) → ipBlocked cfg req = false →
        (webhookPost cfg hmacHex req s).1 = rabbitUnavailableResp) ∧
    rabbitUnavailableResp.status = 503 := by
  refine ⟨by simp [healthGet, hch], ?_, ?_, rfl⟩
  · unfold webhookPost webhookPostAfterAuth relayCore
    rcases h1 : hasValidSignatureFor hmacHex cfg.appSecret req with _ | _ <;>
      rcases h2 : hasValidUserAgentFor req with _ | _ <;>
        rcases h3 : ipBlocked cfg req with _ | _ <;> simp [hch]
  · intro hauth hip
    unfold webhookPost webhookPostAfterAuth relayCore
    rcases hauth with h | h <;> simp [h, hip, hch]

/-- Witness for the amended C8 at a concrete down-channel state. -/
theorem c8_amended_broker_down_witness :
    (healthGet ⟨false, true⟩).status = 503 ∧
    (webhookPost sampleCfg dummyHmac (uaRequest (some (Json.obj [])))
        ⟨false, true⟩).2 = [] ∧
    (webhookPost sampleCfg dummyHmac (uaRequest (some (Json.obj [])))
        ⟨false, true⟩).1 = rabbitUnavailableResp :=
  ⟨(c8_amended_broker_down sampleCfg dummyHmac
      (uaRequest (some (Json.obj []))) ⟨false, true⟩ rfl).1,
   (c8_amended_broker_down sampleCfg dummyHmac
      (uaRequest (some (Json.obj []))) ⟨false, true⟩ rfl).2.1,
   (c8_amended_broker_down sampleCfg dummyHmac
      (uaRequest (some (Json.obj []))) ⟨false, true⟩ rfl).2.2.1
     (Or.inr (by decide)) (by decide)⟩

/-- Claim C9: the verification handshake is deterministic and idempotent:
for fixed mode/token/challenge inputs and fixed configuration, any number of
runs of the handshake endpoint produces the same response each time, and the
module state is unchanged by the calls. -/
theorem c9_handshake_idempotent (cfg : Config) (q : GetQuery)
    (st : ModuleState) (n : Nat) :
    (runGetN cfg q n st).2 = st ∧
    (runGetN cfg q n st).1 = List.replicate n (webhookGet cfg q) := by
  induction n with
  | zero => simp [runGetN]
  | succ k ih =>
    simp [runGetN, webhookGetStateful, ih.1, ih.2, List.replicate]

/-- Claim C10 counterexample: the claim says `isIPInCIDR` returns `false`
whenever the CIDR string is malformed.  The CIDR `31.13.24.0` has no `/bits`
component (shown by the first conjunct), so it is malformed; `parseInt`
yields `NaN`, the mask computation degenerates to the full 32-bit mask, and
the call returns `true` for the identical address. -/
theorem c10_counterexample :
    cidrBits "31.13.24.0" = none ∧
    isIPInCIDR "31.13.24.0" "31.13.24.0" = true := by
  decide

/-- Claim C10 (amended): `isIPInCIDR` is total — it returns a boolean for
every pair of input strings, with every JS exception path caught — and it
returns `false` whenever the address and the range are of strictly different
address families (one dotted-only, one colon-only, or one with neither
marker); a malformed CIDR string, however, does not guarantee `false` (a
missing mask length degenerates to an exact-address comparison).
`isValidMetaIP` returns `false` for `null`/`undefined` and for the empty
string. -/
theorem c10_amended_family_mismatch (ip cidr : String) :
    (isIPInCIDR ip cidr = true ∨ isIPInCIDR ip cidr = false) ∧
    (((jsIncludes ip '.' = true ∧ jsIncludes ip ':' = false ∧
       jsIncludes (cidrRange cidr) ':' = true ∧
       jsIncludes (cidrRange cidr) '.' = false) ∨
      (jsIncludes ip ':' = true ∧ jsIncludes ip '.' = false ∧
       jsIncludes (cidrRange cidr) '.' = true ∧
       jsIncludes (cidrRange cidr) ':' = false) ∨
      (jsIncludes ip '.' = false ∧ jsIncludes ip ':' = false) ∨
      (jsIncludes (cidrRange cidr) '.' = false ∧
       jsIncludes (cidrRange cidr) ':' = false)) →
        isIPInCIDR ip cidr = false) ∧
    (isValidMetaIP none = false ∧ isValidMetaIP (some "") = false) := by
  refine ⟨?_, ?_, by decide⟩
  · rcases h : isIPInCIDR ip cidr with _ | _
    · exact Or.inr rfl
    · exact Or.inl rfl
  · intro hfam
    unfold isIPInCIDR
    rcases hfam with ⟨h1, h2, h3, h4⟩ | ⟨h1, h2, h3, h4⟩ | ⟨h1, h2⟩ | ⟨h1, h2⟩
    · simp [h1, h2, h3, h4]
    · simp [h1, h2, h3, h4]
    · simp [h1, h2]
    · simp [h1, h2]

/-- Witness for the amended C10: an IPv4 address against an IPv6 range is
rejected, and `isValidMetaIP` rejects a missing address. -/
theorem c10_amended_family_mismatch_witness :
    isIPInCIDR "1.2.3.4" "2a03:2880::/32" = false ∧
    isValidMetaIP none = false :=
  ⟨(c10_amended_family_mismatch "1.2.3.4" "2a03:2880::/32").2.1
     (Or.inl ⟨by decide, by decide, by decide, by decide⟩),
   (c10_amended_family_mismatch "1.2.3.4" "2a03:2880::/32").2.2.1⟩

end WhatsappWebhook
